import Mathlib

/-!
# Verification of the todo state-management core

Shallow embedding of the state-management and derived-view layer of the
`todo` repository (React + TypeScript):

* `todoReducer` — `src/context/TodoReducer.ts`.  The TypeScript reducer for
  `UPDATE_TODO` / `TOGGLE_TODO` reads the wall clock via `new Date().toISOString()`
  inside its body; this ambient read is made explicit here as the extra `now`
  argument, so invoking the embedded reducer at instant `now` models one
  invocation of the TypeScript reducer at that instant.
* `filteredAndSortedTodos` — the `useMemo` body of
  `src/components/TodoList/TodoList.tsx` (filter pipeline followed by
  `[...].sort(comparator)`).
* `mount` / `facadeStep` / `runFacade` — the `TodoProvider` effect wiring of
  `src/context/TodoContext.tsx`, as an explicit trace machine.
* `loadFromLocalStorage` — modelled from the spec (the implementation file
  `src/utils/localStorage.ts` is not among the available sources; only its
  test file is).

ISO 8601 instants and due dates are modelled by their epoch values (`Nat`):
`new Date(s).getTime()` is strictly monotone on valid ISO instants, so date
comparison through `getTime()` coincides with `Nat` comparison, and
`toISOString` is injective, so distinct instants give distinct stored strings.
Optional TypeScript fields (`description?`, `dueDate?`, `category?`) become
`Option`; an absent property is `none`.
-/

/-! ## Data model (`src/types/todo.ts`) -/

/-- `Priority = 'low' | 'medium' | 'high'` from `src/types/todo.ts`. -/
inductive Priority where
  | low
  | medium
  | high
deriving DecidableEq, Repr

/-- `SortBy = 'dueDate' | 'priority' | 'createdAt'` from `src/types/todo.ts`. -/
inductive SortBy where
  | dueDate
  | priority
  | createdAt
deriving DecidableEq, Repr

/-- The `Todo` interface of `src/types/todo.ts`.  Timestamps (`createdAt`,
`updatedAt`) and the parsed due date are epoch values (see header). -/
structure Todo where
  id : String
  title : String
  description : Option String
  completed : Bool
  priority : Priority
  dueDate : Option Nat
  category : Option String
  tags : List String
  createdAt : Nat
  updatedAt : Nat
deriving DecidableEq, Repr

/-- The `Category` interface of `src/types/todo.ts`. -/
structure Category where
  id : String
  name : String
  color : String
deriving DecidableEq, Repr

/-- The `TodoFilter` interface of `src/types/todo.ts`.  `category?` and
`priority?` are optional fields. -/
structure TodoFilter where
  searchText : String
  category : Option String
  priority : Option Priority
  showCompleted : Bool
  sortBy : SortBy
deriving DecidableEq, Repr

/-- The `TodoState` interface of `src/types/todo.ts`. -/
structure TodoState where
  todos : List Todo
  categories : List Category
  filter : TodoFilter
deriving DecidableEq, Repr

/-- `Partial<Todo>`: every property optional.  A field that is `none` is
absent from the payload object; `description`/`dueDate`/`category` can also
be present with the value `undefined` (`some none`), which a TypeScript
object spread does copy over the target. -/
structure PartialTodo where
  id : Option String := none
  title : Option String := none
  description : Option (Option String) := none
  completed : Option Bool := none
  priority : Option Priority := none
  dueDate : Option (Option Nat) := none
  category : Option (Option String) := none
  tags : Option (List String) := none
  createdAt : Option Nat := none
  updatedAt : Option Nat := none
deriving DecidableEq, Repr

/-- `Partial<TodoFilter>` for the `SET_FILTER` payload. -/
structure PartialFilter where
  searchText : Option String := none
  category : Option (Option String) := none
  priority : Option (Option Priority) := none
  showCompleted : Option Bool := none
  sortBy : Option SortBy := none
deriving DecidableEq, Repr

/-- The `TodoAction` union of `src/context/TodoReducer.ts`.  The union is
closed, so the reducer's `default` branch is unreachable for well-typed
actions and has no counterpart here. -/
inductive TodoAction where
  | addTodo (payload : Todo)
  | updateTodo (id : String) (updates : PartialTodo)
  | deleteTodo (id : String)
  | toggleTodo (id : String)
  | addCategory (payload : Category)
  | deleteCategory (id : String)
  | setFilter (payload : PartialFilter)
  | loadState (payload : TodoState)
deriving DecidableEq, Repr

/-! ## State store (`src/context/TodoReducer.ts`) -/

/-- The object spread `{ ...todo, ...action.payload.updates, updatedAt: now }`
of the `UPDATE_TODO` branch: every property present in `updates` overrides
the corresponding property of `todo`, and the trailing literal sets
`updatedAt` to the clock reading regardless of the payload. -/
def mergeTodo (t : Todo) (u : PartialTodo) (now : Nat) : Todo where
  id := u.id.getD t.id
  title := u.title.getD t.title
  description := u.description.getD t.description
  completed := u.completed.getD t.completed
  priority := u.priority.getD t.priority
  dueDate := u.dueDate.getD t.dueDate
  category := u.category.getD t.category
  tags := u.tags.getD t.tags
  createdAt := u.createdAt.getD t.createdAt
  updatedAt := now

/-- The spread `{ ...state.filter, ...action.payload }` of `SET_FILTER`. -/
def mergeFilter (f : TodoFilter) (p : PartialFilter) : TodoFilter where
  searchText := p.searchText.getD f.searchText
  category := p.category.getD f.category
  priority := p.priority.getD f.priority
  showCompleted := p.showCompleted.getD f.showCompleted
  sortBy := p.sortBy.getD f.sortBy

/-- `todoReducer` of `src/context/TodoReducer.ts`.  `now` is the value of
`new Date().toISOString()` at the instant of this invocation (the branches
that do not mention it never read the clock in the TypeScript source). -/
def todoReducer (state : TodoState) (action : TodoAction) (now : Nat) : TodoState :=
  match action with
  | .addTodo p => { state with todos := state.todos ++ [p] }
  | .updateTodo i u =>
      { state with
        todos := state.todos.map fun t => if t.id = i then mergeTodo t u now else t }
  | .deleteTodo i =>
      { state with todos := state.todos.filter fun t => t.id ≠ i }
  | .toggleTodo i =>
      { state with
        todos := state.todos.map fun t =>
          if t.id = i then { t with completed := !t.completed, updatedAt := now } else t }
  | .addCategory c => { state with categories := state.categories ++ [c] }
  | .deleteCategory i =>
      { state with categories := state.categories.filter fun c => c.id ≠ i }
  | .setFilter p => { state with filter := mergeFilter state.filter p }
  | .loadState s => s

/-- `initialState` of `src/context/TodoReducer.ts`. -/
def initialState : TodoState where
  todos := []
  categories := []
  filter :=
    { searchText := ""
      category := none
      priority := none
      showCompleted := true
      sortBy := .createdAt }

/-- The reducer branches whose TypeScript bodies contain a
`new Date().toISOString()` call: `UPDATE_TODO` and `TOGGLE_TODO`. -/
def readsClock : TodoAction → Bool
  | .updateTodo _ _ => true
  | .toggleTodo _ => true
  | _ => false

/-! ## Derived view (`src/components/TodoList/TodoList.tsx`) -/

/-- `String.prototype.toLowerCase()`, modelled on the character sequence with
the ASCII case mapping `Char.toLower` (the same mapping on both sides for
the characters the claims exercise). -/
def lowerChars (s : String) : List Char :=
  s.data.map Char.toLower

/-- `s.includes(pat)` on JavaScript strings: `pat` occurs contiguously in `s`. -/
def charsContain (s pat : List Char) : Bool :=
  decide (List.IsInfix pat s)

/-- The search predicate of `TodoList.tsx`:
`todo.title.toLowerCase().includes(searchLower) ||
 todo.description?.toLowerCase().includes(searchLower)`.
With optional chaining, a todo without a description yields `undefined`
(falsy) for the right disjunct, so such a todo can match on its title only. -/
def matchesSearch (searchText : String) (t : Todo) : Bool :=
  let searchLower := lowerChars searchText
  charsContain (lowerChars t.title) searchLower ||
    match t.description with
    | some d => charsContain (lowerChars d) searchLower
    | none => false

/-- The four `if (...) filtered = filtered.filter(...)` stages of
`TodoList.tsx`, in source order.  The guards are JavaScript truthiness
tests: `state.filter.searchText` and `state.filter.category` are falsy when
absent *or* when the empty string; `state.filter.priority` is a non-empty
enum string whenever present. -/
def applyFilters (f : TodoFilter) (todos : List Todo) : List Todo :=
  let l1 := if f.searchText = "" then todos else todos.filter (matchesSearch f.searchText)
  let l2 :=
    match f.category with
    | none => l1
    | some c => if c = "" then l1 else l1.filter fun t => t.category = some c
  let l3 :=
    match f.priority with
    | none => l2
    | some p => l2.filter fun t => t.priority = p
  if f.showCompleted then l3 else l3.filter fun t => !t.completed

/-- `const priorityOrder = { high: 0, medium: 1, low: 2 }`. -/
def priorityOrder : Priority → Nat
  | .high => 0
  | .medium => 1
  | .low => 2

/-- The `case 'dueDate'` branch of the comparator, after the completion
check: `(!a.dueDate && !b.dueDate) → 0`, `!a.dueDate → 1`, `!b.dueDate → -1`,
otherwise the difference of the parsed times. -/
def cmpDue : Option Nat → Option Nat → Int
  | none, none => 0
  | none, some _ => 1
  | some _, none => -1
  | some x, some y => (x : Int) - (y : Int)

/-- The comparator passed to `[...filtered].sort((a, b) => ...)` in
`TodoList.tsx`: completion partition first, then the `sortBy` key. -/
def cmpTodos (sb : SortBy) (a b : Todo) : Int :=
  if a.completed != b.completed then (if a.completed then 1 else -1)
  else
    match sb with
    | .dueDate => cmpDue a.dueDate b.dueDate
    | .priority => (priorityOrder a.priority : Int) - (priorityOrder b.priority : Int)
    | .createdAt => (b.createdAt : Int) - (a.createdAt : Int)

/-- The non-strict order induced by the comparator: `a` may be placed before
`b` exactly when `cmpTodos sb a b ≤ 0`. -/
def TodoLE (sb : SortBy) (a b : Todo) : Prop :=
  cmpTodos sb a b ≤ 0

instance (sb : SortBy) : DecidableRel (TodoLE sb) := fun a b =>
  inferInstanceAs (Decidable (cmpTodos sb a b ≤ 0))

/-- The `useMemo` body of `TodoList.tsx`: the filter pipeline followed by
`[...].sort(comparator)`.  `Array.prototype.sort` is stable (ES2019) and for
a consistent comparator produces the unique stable sorted permutation, which
is what `List.insertionSort` with `TodoLE` (i.e. `cmpTodos ≤ 0`) computes;
`TodoLE` is proved total and transitive for every `sortBy` below. -/
def filteredAndSortedTodos (state : TodoState) : List Todo :=
  List.insertionSort (TodoLE state.filter.sortBy) (applyFilters state.filter state.todos)

/-- The spec's `dueDate` ordering within a completion partition: a todo may
precede another if both lack a due date, if only the second lacks one, or if
both have one and the first is not later. -/
def dueLe : Option Nat → Option Nat → Prop
  | none, none => True
  | none, some _ => False
  | some _, none => True
  | some x, some y => x ≤ y

/-- The Derived View membership predicate exactly as the spec words it
(§4.2 and the filter-composition law): the conjunction of
* the search predicate — non-empty `searchText` must occur case-insensitively
  in the title or in the description, a missing description matching nothing;
* the category predicate — `category` must equal the filter's category
  exactly *when the filter's category is set*;
* the priority predicate — `priority` must equal the filter's priority when
  set;
* the completion predicate — `completed = false` unless `showCompleted`. -/
def specMatches (f : TodoFilter) (t : Todo) : Bool :=
  (f.searchText == "" || matchesSearch f.searchText t) &&
    (match f.category with
      | none => true
      | some c => t.category == some c) &&
    (match f.priority with
      | none => true
      | some p => t.priority == p) &&
    (f.showCompleted || !t.completed)

/-- `specMatches` with the one change the code forces: a category filter that
is set *to the empty string* matches every todo (the code's truthiness guard
skips the category stage for `""`), instead of matching only todos whose
category is the empty string. -/
def specMatchesAmended (f : TodoFilter) (t : Todo) : Bool :=
  (f.searchText == "" || matchesSearch f.searchText t) &&
    (match f.category with
      | none => true
      | some c => c == "" || t.category == some c) &&
    (match f.priority with
      | none => true
      | some p => t.priority == p) &&
    (f.showCompleted || !t.completed)

/-! ## Application façade (`src/context/TodoContext.tsx`)

`TodoProvider` wires the reducer to persistence with two effects:

```
useEffect(() => {                       -- load effect, on mount only
  const savedState = loadFromLocalStorage();
  if (savedState) dispatch(LOAD_STATE(savedState));
  setIsInitialized(true);
}, []);
useEffect(() => {                       -- save effect, on [state, isInitialized]
  if (isInitialized) saveToLocalStorage(state);
}, [state, isInitialized]);
```

The trace machine below follows React's effect semantics: after the first
render both effects run with the first render's values (`state = initialState`,
`isInitialized = false`); the dispatch and `setIsInitialized(true)` issued by
the load effect take effect at the second render, after which the save effect
re-runs with the new values; each later dispatch re-renders and re-runs the
save effect.  The persisted slot is modelled at the value level
(`Option TodoState`), since `Save` serializes the full state verbatim. -/

/-- One observable trace state of `TodoProvider`: the reducer state, the
`isInitialized` flag, the persisted slot's content, and the log of executed
`saveToLocalStorage` calls, each tagged with the value of `isInitialized`
that the save effect observed. -/
structure FacadeTrace where
  st : TodoState
  isInitialized : Bool
  storage : Option TodoState
  saveLog : List (Bool × TodoState)
deriving DecidableEq, Repr

/-- One run of the save effect with the captured render values `isInit` and
`st`: `if (isInitialized) saveToLocalStorage(state)`. -/
def runSaveEffect (isInit : Bool) (st : TodoState) (f : FacadeTrace) : FacadeTrace :=
  if isInit then { f with storage := some st, saveLog := f.saveLog ++ [(isInit, st)] }
  else f

/-- Mounting `TodoProvider` over a slot holding `storage0`: first render with
`initialState` and `isInitialized = false`; the load effect dispatches
`LOAD_STATE` when a value was loaded and marks initialization complete; the
save effect first runs with the first render's values, then re-runs at the
second render.  (`LOAD_STATE` never reads the clock, so the reducer's `now`
argument is irrelevant there and instantiated with `0`.) -/
def mount (storage0 : Option TodoState) : FacadeTrace :=
  let f0 : FacadeTrace :=
    { st := initialState, isInitialized := false, storage := storage0, saveLog := [] }
  let st1 :=
    match f0.storage with
    | some saved => todoReducer f0.st (.loadState saved) 0
    | none => f0.st
  let f1 := runSaveEffect f0.isInitialized f0.st { f0 with st := st1, isInitialized := true }
  runSaveEffect f1.isInitialized f1.st f1

/-- One user action dispatched at instant `now` after mount: the reducer
produces the next state, the re-render re-runs the save effect with the
current `isInitialized`. -/
def facadeStep (f : FacadeTrace) (a : TodoAction) (now : Nat) : FacadeTrace :=
  let st1 := todoReducer f.st a now
  runSaveEffect f.isInitialized st1 { f with st := st1 }

/-- A whole execution of the façade: mount over an initial slot content,
then the dispatched actions in order, each with its invocation instant. -/
def runFacade (storage0 : Option TodoState) (acts : List (TodoAction × Nat)) : FacadeTrace :=
  acts.foldl (fun f p => facadeStep f p.1 p.2) (mount storage0)

/-! ## Persistence adapter

`src/utils/localStorage.ts` is not among the available sources; only its test
file `src/utils/localStorage.test.ts` is.  The definitions of this section are
therefore modelled from the spec (§4.3) and that test file: the storage key is
`todo-app-state`; `Load` reads the slot, returns "no value" when it is absent,
parses the text as JSON otherwise, and converts both a parse error and a
raising read into "no value".  `JSON.parse` is modelled by a standard JSON
recursive-descent parser. -/

/-- JSON values, the result type of `JSON.parse`.  Numeric literals are kept
verbatim; their numeric interpretation plays no role in the claims. -/
inductive Json where
  | null
  | bool (b : Bool)
  | num (lit : String)
  | str (s : String)
  | arr (elems : List Json)
  | obj (fields : List (String × Json))

/-- JSON insignificant whitespace: space, tab, line feed, carriage return. -/
def isJsonWs (c : Char) : Bool :=
  c == '\x20' || c == '\x09' || c == '\x0a' || c == '\x0d'

/-- Strip the word `w` from the front of `cs`, character by character. -/
def stripWord (w : List Char) (cs : List Char) : Option (List Char) :=
  match w, cs with
  | [], rest => some rest
  | kc :: kw, c :: rest => if kc == c then stripWord kw rest else none
  | _ :: _, [] => none

/-- The value of a hexadecimal digit, read off the code point. -/
def hexDigitVal (c : Char) : Option Nat :=
  let n := c.toNat
  if 48 ≤ n && n ≤ 57 then some (n - 48)
  else if 65 ≤ n && n ≤ 70 then some (n - 55)
  else if 97 ≤ n && n ≤ 102 then some (n - 87)
  else none

/-- The single-character escapes of a JSON string, as replacement pairs. -/
def simpleEscapes : List (Char × Char) :=
  [('"', '"'), ('\\', '\\'), ('/', '/'), ('b', '\x08'), ('f', '\x0c'),
   ('n', '\x0a'), ('r', '\x0d'), ('t', '\x09')]

/-- Decode one JSON escape sequence, given the input just after the
backslash: the decoded character and the remaining input. -/
def decodeEscape : List Char → Option (Char × List Char)
  | [] => none
  | e :: rest =>
    if e == 'u' then
      match rest with
      | h1 :: h2 :: h3 :: h4 :: r2 =>
        match hexDigitVal h1, hexDigitVal h2, hexDigitVal h3, hexDigitVal h4 with
        | some v1, some v2, some v3, some v4 =>
          some (Char.ofNat (v1 * 4096 + v2 * 256 + v3 * 16 + v4), r2)
        | _, _, _, _ => none
      | _ => none
    else (simpleEscapes.lookup e).map fun ch => (ch, rest)

/-- Collect the characters of a JSON string literal up to its closing quote,
given the input just after the opening quote. -/
def scanString (fuel : Nat) (cs : List Char) (acc : List Char) :
    Option (String × List Char) :=
  match fuel with
  | 0 => none
  | fuel + 1 =>
    match cs with
    | [] => none
    | c :: rest =>
      if c == '"' then some (⟨acc.reverse⟩, rest)
      else if c == '\\' then
        match decodeEscape rest with
        | some (ch, r2) => scanString fuel r2 (ch :: acc)
        | none => none
      else scanString fuel rest (c :: acc)

/-- The longest leading run of decimal digits, and the input after it. -/
def digitSpan (cs : List Char) : List Char × List Char :=
  (cs.takeWhile Char.isDigit, cs.dropWhile Char.isDigit)

/-- Optional fraction part of a JSON number: a dot must be followed by at
least one digit. -/
def parseFrac : List Char → Option (List Char × List Char)
  | '.' :: rf =>
    let (fs, rr) := digitSpan rf
    if fs.isEmpty then none else some ('.' :: fs, rr)
  | cs => some ([], cs)

/-- Optional exponent part of a JSON number. -/
def parseExp : List Char → Option (List Char × List Char)
  | [] => some ([], [])
  | e :: rest =>
    if e == 'e' || e == 'E' then
      let (sgn, r1) :=
        match rest with
        | '+' :: rr => (['+'], rr)
        | '-' :: rr => (['-'], rr)
        | _ => ([], rest)
      let (ds, r2) := digitSpan r1
      if ds.isEmpty then none else some (e :: (sgn ++ ds), r2)
    else some ([], e :: rest)

/-- Parse a JSON number literal: optional minus, integer part without a
leading zero, optional fraction, optional exponent. -/
def parseNumber (cs : List Char) : Option (String × List Char) :=
  let (sign, cs1) :=
    match cs with
    | '-' :: r => (['-'], r)
    | _ => ([], cs)
  let (ds, r1) := digitSpan cs1
  match ds with
  | [] => none
  | d0 :: drest =>
    if d0 == '0' && !drest.isEmpty then none
    else
      match parseFrac r1 with
      | none => none
      | some (fr, r2) =>
        match parseExp r2 with
        | none => none
        | some (ex, r3) => some (⟨sign ++ ds ++ fr ++ ex⟩, r3)

mutual

/-- Parse one JSON value after optional leading whitespace, returning the
value and the remaining input. -/
def parseValue : Nat → List Char → Option (Json × List Char)
  | 0, _ => none
  | fuel + 1, cs =>
    let cs1 := cs.dropWhile isJsonWs
    match stripWord "null".data cs1 with
    | some rest => some (.null, rest)
    | none =>
    match stripWord "true".data cs1 with
    | some rest => some (.bool true, rest)
    | none =>
    match stripWord "false".data cs1 with
    | some rest => some (.bool false, rest)
    | none =>
    match cs1 with
    | '"' :: rest =>
      (scanString (rest.length + 1) rest []).map fun p => (.str p.1, p.2)
    | '[' :: rest =>
      match rest.dropWhile isJsonWs with
      | ']' :: r => some (.arr [], r)
      | rest2 => parseElems fuel rest2 []
    | '\x7b' :: rest =>
      match rest.dropWhile isJsonWs with
      | '\x7d' :: r => some (.obj [], r)
      | rest2 => parseFields fuel rest2 []
    | rest => (parseNumber rest).map fun p => (.num p.1, p.2)
termination_by structural fuel => fuel

/-- Parse the comma-separated elements of a non-empty JSON array, the first
element pending, accumulating in reverse. -/
def parseElems : Nat → List Char → List Json → Option (Json × List Char)
  | 0, _, _ => none
  | fuel + 1, cs, acc =>
    match parseValue fuel cs with
    | none => none
    | some (v, rest) =>
      match rest.dropWhile isJsonWs with
      | ',' :: r => parseElems fuel r (v :: acc)
      | ']' :: r => some (.arr (v :: acc).reverse, r)
      | _ => none
termination_by structural fuel => fuel

/-- Parse the comma-separated `"key": value` fields of a non-empty JSON
object, the first field pending, accumulating in reverse. -/
def parseFields : Nat → List Char → List (String × Json) → Option (Json × List Char)
  | 0, _, _ => none
  | fuel + 1, cs, acc =>
    match cs.dropWhile isJsonWs with
    | '"' :: rest =>
      match scanString (rest.length + 1) rest [] with
      | none => none
      | some (k, r1) =>
        match r1.dropWhile isJsonWs with
        | ':' :: r2 =>
          match parseValue fuel r2 with
          | none => none
          | some (v, r3) =>
            match r3.dropWhile isJsonWs with
            | ',' :: r4 => parseFields fuel r4 ((k, v) :: acc)
            | '\x7d' :: r4 => some (.obj ((k, v) :: acc).reverse, r4)
            | _ => none
        | _ => none
    | _ => none
termination_by structural fuel => fuel

end

/-- `JSON.parse(text)` as a total function: `some` on a complete JSON text,
`none` where `JSON.parse` throws a `SyntaxError`.  The fuel `2 * length + 2`
dominates the recursion depth, since every nested parse consumes at least
one character of the input. -/
def parseJson (s : String) : Option Json :=
  match parseValue (2 * s.length + 2) s.data with
  | none => none
  | some (v, rest) => if (rest.dropWhile isJsonWs).isEmpty then some v else none

/-- The single storage slot name, from `localStorage.test.ts`. -/
def STORAGE_KEY : String := "todo-app-state"

/-- The observable behavior of the browser's `localStorage` for a read:
slot contents per key, plus whether `getItem` itself raises (storage
disabled, security error, ...). -/
structure StorageModel where
  slots : String → Option String
  readRaises : Bool

/-- `localStorage.getItem(key)`: an exception or the slot's content
(`null` when absent). -/
def getItemModel (m : StorageModel) (k : String) : Except Unit (Option String) :=
  if m.readRaises then .error () else .ok (m.slots k)

/-- Modelled from the spec: `loadFromLocalStorage` of
`src/utils/localStorage.ts`, whose implementation file is not among the
available sources (only `src/utils/localStorage.test.ts` is).  Per §4.3 of
the spec and that test file: read the single named slot; an absent slot
yields "no value"; text that fails to parse as JSON is caught, logged and
yields "no value"; a raising read is caught the same way.  The model is a
total function into `Option`, so no outcome raises; logging has no
observable effect on callers and is not modelled. -/
def loadFromLocalStorage (m : StorageModel) : Option Json :=
  match getItemModel m STORAGE_KEY with
  | .error _ => none
  | .ok none => none
  | .ok (some text) =>
    match parseJson text with
    | none => none
    | some v => some v

/-! ## Concrete fixtures for the closed instances below -/

/-- A concrete incomplete todo. -/
def sampleTodo : Todo where
  id := "1"
  title := "Buy milk"
  description := some "Weekly groceries"
  completed := false
  priority := .medium
  dueDate := some 20
  category := some "Work"
  tags := ["home"]
  createdAt := 10
  updatedAt := 10

/-- A one-todo state with the default filter. -/
def sampleState : TodoState where
  todos := [sampleTodo]
  categories := [{ id := "cat1", name := "Work", color := "#ff0000" }]
  filter := initialState.filter

/-- A filter whose category is set to the empty string. -/
def emptyCatFilter : TodoFilter where
  searchText := ""
  category := some ""
  priority := none
  showCompleted := true
  sortBy := .createdAt

/-- `sampleState` with the empty-string category filter. -/
def emptyCatState : TodoState :=
  { sampleState with filter := emptyCatFilter }

/-- A completed todo without a due date. -/
def doneNoDueTodo : Todo :=
  { sampleTodo with
    id := "2"
    title := "Archive"
    completed := true
    dueDate := none
    createdAt := 11
    updatedAt := 11 }

/-- An incomplete todo without a due date. -/
def noDueTodo : Todo :=
  { sampleTodo with
    id := "3"
    title := "Someday"
    dueDate := none
    createdAt := 12
    updatedAt := 12 }

/-- A three-todo state sorted by due date. -/
def dueDateState : TodoState where
  todos := [doneNoDueTodo, noDueTodo, sampleTodo]
  categories := []
  filter := { initialState.filter with sortBy := .dueDate }

/-- An update payload that changes only the title. -/
def titleUpdate : PartialTodo :=
  { title := some "Buy oat milk" }

/-- An update payload that supplies `id`, `createdAt` and `updatedAt`
explicitly. -/
def overridingUpdate : PartialTodo :=
  { id := some "2", createdAt := some 99, updatedAt := some 999 }

/-- A state with two todos and two categories sharing one id each. -/
def duplicateIdState : TodoState where
  todos := [sampleTodo, { sampleTodo with title := "Buy milk again", createdAt := 15 }]
  categories :=
    [{ id := "cat1", name := "Work", color := "#ff0000" },
     { id := "cat1", name := "Work2", color := "#00ff00" }]
  filter := initialState.filter

/-- A storage whose slot holds text that is not JSON. -/
def corruptStorage : StorageModel where
  slots := fun k => if k = STORAGE_KEY then some "invalid json" else none
  readRaises := false

/-- A storage whose read raises. -/
def raisingStorage : StorageModel where
  slots := fun _ => none
  readRaises := true

/-- A storage with no slot set. -/
def emptyStorage : StorageModel where
  slots := fun _ => none
  readRaises := false

/-! ## The comparator is a total preorder -/

theorem cmpDue_total (x y : Option Nat) : cmpDue x y ≤ 0 ∨ cmpDue y x ≤ 0 := by
  cases x <;> cases y <;> simp [cmpDue] <;> omega

theorem cmpDue_trans {x y z : Option Nat} (h1 : cmpDue x y ≤ 0) (h2 : cmpDue y z ≤ 0) :
    cmpDue x z ≤ 0 := by
  cases x <;> cases y <;> cases z <;> simp_all [cmpDue] <;> omega

theorem todoLE_total (sb : SortBy) (a b : Todo) : TodoLE sb a b ∨ TodoLE sb b a := by
  unfold TodoLE cmpTodos
  cases ha : a.completed <;> cases hb : b.completed <;> simp [ha, hb] <;> cases sb <;> simp
  · exact cmpDue_total a.dueDate b.dueDate
  · omega
  · omega
  · exact cmpDue_total a.dueDate b.dueDate
  · omega
  · omega

theorem todoLE_trans {sb : SortBy} {a b c : Todo}
    (h1 : TodoLE sb a b) (h2 : TodoLE sb b c) : TodoLE sb a c := by
  unfold TodoLE cmpTodos at h1 h2 ⊢
  cases ha : a.completed <;> cases hb : b.completed <;> cases hc : c.completed <;>
      simp_all <;> cases sb <;> simp_all
  · exact cmpDue_trans h1 h2
  · omega
  · omega
  · exact cmpDue_trans h1 h2
  · omega
  · omega

instance (sb : SortBy) : IsTotal Todo (TodoLE sb) := ⟨todoLE_total sb⟩

instance (sb : SortBy) : IsTrans Todo (TodoLE sb) := ⟨fun _ _ _ => todoLE_trans⟩

/-- The comparator's first test: a completed todo never compares `≤ 0`
against an incomplete one. -/
theorem todoLE_completed {sb : SortBy} {a b : Todo} (h : TodoLE sb a b)
    (ha : a.completed = true) : b.completed = true := by
  by_contra hb
  rw [Bool.not_eq_true] at hb
  unfold TodoLE cmpTodos at h
  simp [ha, hb] at h

/-- Stability of the embedded sort: a class of mutually `≤`-related elements
keeps its original relative order, expressed as the sort commuting with
filtering by the class predicate. -/
theorem filter_insertionSort_of_class {sb : SortBy} (p : Todo → Bool)
    (hcl : ∀ a b, p a = true → p b = true → TodoLE sb a b) (l : List Todo) :
    (List.insertionSort (TodoLE sb) l).filter p = l.filter p := by
  have hperm : List.Perm ((List.insertionSort (TodoLE sb) l).filter p) (l.filter p) :=
    (List.perm_insertionSort (TodoLE sb) l).filter p
  have hpw : (l.filter p).Pairwise (TodoLE sb) :=
    List.pairwise_of_forall_mem_list fun a ha b hb =>
      hcl a b (List.mem_filter.mp ha).2 (List.mem_filter.mp hb).2
  have hsub : List.Sublist (l.filter p) (List.insertionSort (TodoLE sb) l) :=
    List.sublist_insertionSort hpw (List.filter_sublist l)
  have hself : (l.filter p).filter p = l.filter p :=
    List.filter_eq_self.mpr fun a ha => (List.mem_filter.mp ha).2
  have hsub2 : List.Sublist (l.filter p) ((List.insertionSort (TodoLE sb) l).filter p) := by
    have h3 := hsub.filter p
    rwa [hself] at h3
  exact (hsub2.eq_of_length hperm.length_eq.symm).symm

theorem todoLE_dueDate {a b : Todo} (h : TodoLE .dueDate a b)
    (hc : a.completed = b.completed) : dueLe a.dueDate b.dueDate := by
  unfold TodoLE cmpTodos at h
  rw [hc] at h
  simp only [bne_self_eq_false, Bool.false_eq_true, if_false] at h
  rcases ha : a.dueDate with _ | x <;> rcases hb : b.dueDate with _ | y <;>
    simp_all [cmpDue, dueLe] <;> omega

/-- The filter pipeline keeps exactly the todos satisfying the (amended)
conjunction of the four predicates. -/
theorem mem_applyFilters {f : TodoFilter} {l : List Todo} {t : Todo} :
    t ∈ applyFilters f l ↔ t ∈ l ∧ specMatchesAmended f t = true := by
  rcases f with ⟨st, cat, prio, sc, sb⟩
  unfold applyFilters specMatchesAmended
  dsimp only
  by_cases hst : st = "" <;> rcases cat with _ | c <;> rcases prio with _ | p <;>
      cases sc <;> (try by_cases hce : c = "") <;>
    simp_all [List.mem_filter] <;> tauto

/-! ## C2: the partition law -/

/-- C2.  Partition law of the Derived View: for every state — hence every
`searchText`, `category`, `priority`, `showCompleted` and `sortBy` setting —
whenever one todo precedes another in the Derived View output, completion of
the earlier implies completion of the later; equivalently every todo with
`completed = true` appears after every todo with `completed = false`,
whatever the sort comparator. -/
theorem derivedView_partition (s : TodoState) :
    (filteredAndSortedTodos s).Pairwise fun a b =>
      a.completed = true → b.completed = true :=
  List.Pairwise.imp (fun {_ _} h ha => todoLE_completed h ha)
    (List.sorted_insertionSort (TodoLE s.filter.sortBy) (applyFilters s.filter s.todos))

/-! ## C4: the dueDate sort order and stability -/

/-- C4.  With `sortBy = dueDate`, within each completion partition the output
is ascending by due date and todos with a due date precede all todos without
one (`dueLe`); and the sort is stable: each tie class — a completion flag
together with an identical due-date key, in particular the class of todos
lacking a due date — appears in the output in its original relative order
(the filtered input's order). -/
theorem derivedView_dueDate_sort (s : TodoState) (hsb : s.filter.sortBy = SortBy.dueDate) :
    ((filteredAndSortedTodos s).Pairwise fun a b =>
        a.completed = b.completed → dueLe a.dueDate b.dueDate) ∧
      ∀ (c : Bool) (k : Option Nat),
        (filteredAndSortedTodos s).filter (fun t => t.completed == c && t.dueDate == k) =
          (applyFilters s.filter s.todos).filter fun t => t.completed == c && t.dueDate == k := by
  unfold filteredAndSortedTodos
  rw [hsb]
  constructor
  · exact List.Pairwise.imp (fun {_ _} h hc => todoLE_dueDate h hc)
      (List.sorted_insertionSort (TodoLE .dueDate) (applyFilters s.filter s.todos))
  · intro c k
    apply filter_insertionSort_of_class
    intro a b hpa hpb
    simp only [Bool.and_eq_true, beq_iff_eq] at hpa hpb
    unfold TodoLE cmpTodos
    rw [hpa.1, hpb.1]
    simp only [bne_self_eq_false, Bool.false_eq_true, if_false]
    rw [hpa.2, hpb.2]
    cases k <;> simp [cmpDue]

/-! ## C1: reducer purity and clock dependence -/

/-- C1 counterexample: two invocations of the reducer with identical state
and action, at instants 0 and 1, give different results — the `updatedAt` of
the toggled todo differs — because the TypeScript reducer reads the wall
clock inside its `UPDATE_TODO`/`TOGGLE_TODO` branches instead of consuming
it as an external input. -/
theorem reducer_clock_dependence_cex :
    todoReducer sampleState (.toggleTodo "1") 0 ≠
      todoReducer sampleState (.toggleTodo "1") 1 := by
  decide

/-- C1 (amended): the reducer does not mutate its input (it builds a fresh
state value; modelled as a pure function), and it is a pure function of
(state, action, clock reading).  For every action that does not read the
clock — everything except Update Todo and Toggle Todo — a second invocation
with identical (S, A) yields an identical result regardless of the instant;
for Update Todo and Toggle Todo the result additionally depends on the
instant of invocation. -/
theorem reducer_pure_without_clock (s : TodoState) (a : TodoAction) (now1 now2 : Nat)
    (h : readsClock a = false) : todoReducer s a now1 = todoReducer s a now2 := by
  cases a <;> first
    | rfl
    | simp [readsClock] at h

/-- Closed instance of `reducer_pure_without_clock`. -/
theorem reducer_pure_without_clock_witness :
    todoReducer sampleState (.deleteTodo "1") 0 =
      todoReducer sampleState (.deleteTodo "1") 1 :=
  reducer_pure_without_clock sampleState (.deleteTodo "1") 0 1 rfl

/-! ## C3: filter composition -/

/-- C3 counterexample: in a state whose category filter is set to the empty
string, the Derived View keeps a todo whose category is `"Work"` — the
code's truthiness guard skips the category stage for `""` — although the
todo fails the spec's conjunction, whose category predicate requires
equality with the set category. -/
theorem filter_composition_cex :
    sampleTodo ∈ filteredAndSortedTodos emptyCatState ∧
      specMatches emptyCatState.filter sampleTodo = false := by
  decide

/-- C3 (amended): for every state, the todos in the Derived View output are
exactly the todos of the state satisfying the conjunction of the set
predicates — title or description containing `searchText` case-insensitively
when it is non-empty (a todo with no description is excluded from the
description match only), category equal to the filter's category when that is
set *to a non-empty string* (an empty-string category filter matches all
todos, like an absent one), priority equal to the filter's priority when set,
and `completed = false` when `showCompleted` is false. -/
theorem derivedView_filter_composition (s : TodoState) (t : Todo) :
    t ∈ filteredAndSortedTodos s ↔ t ∈ s.todos ∧ specMatchesAmended s.filter t = true := by
  unfold filteredAndSortedTodos
  rw [List.mem_insertionSort]
  exact mem_applyFilters

/-! ## C5: immutability of id and createdAt under Update Todo -/

/-- C5 counterexample: an Update Todo whose payload itself supplies `id` and
`createdAt` overwrites both on the matched todo — the shallow merge copies
every supplied field before stamping `updatedAt` — so the matched todo does
not keep its `id` and `createdAt` under arbitrary partial payloads. -/
theorem update_id_createdAt_cex :
    (todoReducer sampleState (.updateTodo "1" overridingUpdate) 50).todos.map Todo.id
        = ["2"] ∧
      (todoReducer sampleState (.updateTodo "1" overridingUpdate) 50).todos.map
          Todo.createdAt = [99] ∧
      sampleState.todos.map Todo.id = ["1"] ∧
      sampleState.todos.map Todo.createdAt = [10] := by
  decide

/-- C5 (amended): for every Update Todo whose payload does not itself supply
`id` or `createdAt`, every todo in the resulting state keeps its `id` and its
`createdAt` (position by position), and a todo whose id does not match the
action is unchanged entirely. -/
theorem update_preserves_id_createdAt (s : TodoState) (i : String) (u : PartialTodo)
    (now : Nat) (j : Nat) (hid : u.id = none) (hca : u.createdAt = none) :
    ((todoReducer s (.updateTodo i u) now).todos[j]?).map Todo.id
        = (s.todos[j]?).map Todo.id ∧
      ((todoReducer s (.updateTodo i u) now).todos[j]?).map Todo.createdAt
        = (s.todos[j]?).map Todo.createdAt ∧
      ∀ t, s.todos[j]? = some t → t.id ≠ i →
        (todoReducer s (.updateTodo i u) now).todos[j]? = some t := by
  unfold todoReducer
  refine ⟨?_, ?_, ?_⟩
  · simp only [List.getElem?_map]
    rcases h : s.todos[j]? with _ | t
    · rfl
    · by_cases hti : t.id = i <;> simp [hti, mergeTodo, hid]
  · simp only [List.getElem?_map]
    rcases h : s.todos[j]? with _ | t
    · rfl
    · by_cases hti : t.id = i <;> simp [hti, mergeTodo, hca]
  · intro t ht hne
    simp only [List.getElem?_map, ht]
    simp [hne]

/-- Closed instance of `update_preserves_id_createdAt`, at a title-only
payload. -/
theorem update_preserves_id_createdAt_witness :
    ((todoReducer sampleState (.updateTodo "1" titleUpdate) 50).todos[0]?).map Todo.id
        = (sampleState.todos[0]?).map Todo.id ∧
      ((todoReducer sampleState (.updateTodo "1" titleUpdate) 50).todos[0]?).map
          Todo.createdAt = (sampleState.todos[0]?).map Todo.createdAt ∧
      ∀ t, sampleState.todos[0]? = some t → t.id ≠ "1" →
        (todoReducer sampleState (.updateTodo "1" titleUpdate) 50).todos[0]? = some t :=
  update_preserves_id_createdAt sampleState "1" titleUpdate 50 0 rfl rfl

/-! ## C6: façade startup ordering -/

/-- C6: in every execution of the façade — any initial slot content, any
subsequent dispatches — every executed save observed `isInitialized = true`,
so no save happens before initialization is marked complete; and mounting
over a slot holding `s0` leaves the slot holding `s0` and records exactly one
startup save, of the loaded state `s0` itself: the persisted data is never
overwritten by the empty default before the load has applied. -/
theorem facade_startup_ordering (storage0 : Option TodoState)
    (acts : List (TodoAction × Nat)) :
    (∀ e ∈ (runFacade storage0 acts).saveLog, e.1 = true) ∧
      ∀ s0, storage0 = some s0 →
        (mount storage0).storage = some s0 ∧ (mount storage0).saveLog = [(true, s0)] := by
  constructor
  · have base : ∀ e ∈ (mount storage0).saveLog, e.1 = true := by
      rcases storage0 with _ | s0 <;>
        simp [mount, runSaveEffect, todoReducer]
    have step : ∀ (f : FacadeTrace) (a : TodoAction) (n : Nat),
        (∀ e ∈ f.saveLog, e.1 = true) → ∀ e ∈ (facadeStep f a n).saveLog, e.1 = true := by
      intro f a n hf e he
      unfold facadeStep runSaveEffect at he
      by_cases hi : f.isInitialized <;> simp [hi] at he
      · rcases he with he | he
        · exact hf e he
        · simp [he, hi]
      · exact hf e he
    have main : ∀ (l : List (TodoAction × Nat)) (f : FacadeTrace),
        (∀ e ∈ f.saveLog, e.1 = true) →
          ∀ e ∈ (l.foldl (fun f p => facadeStep f p.1 p.2) f).saveLog, e.1 = true := by
      intro l
      induction l with
      | nil => intro f hf; simpa using hf
      | cons p rest ih => intro f hf; exact ih _ (step f p.1 p.2 hf)
    exact main acts (mount storage0) base
  · intro s0 h0
    subst h0
    exact ⟨rfl, rfl⟩

/-- Closed instance of `facade_startup_ordering`. -/
theorem facade_startup_ordering_witness :
    (∀ e ∈ (runFacade (some sampleState) [(.toggleTodo "1", 60)]).saveLog, e.1 = true) ∧
      (mount (some sampleState)).storage = some sampleState ∧
      (mount (some sampleState)).saveLog = [(true, sampleState)] :=
  ⟨(facade_startup_ordering (some sampleState) [(.toggleTodo "1", 60)]).1,
   ((facade_startup_ordering (some sampleState) []).2 sampleState rfl).1,
   ((facade_startup_ordering (some sampleState) []).2 sampleState rfl).2⟩

/-! ## C7: graceful degradation of Load -/

/-- C7: `Load` yields "no value" — and, being a total function into `Option`,
never raises — whenever the read itself raises, whenever the slot is absent,
and whenever the slot's text fails to parse as JSON; in particular the
literal text `invalid json` fails to parse, so corrupted persisted data is
treated identically to no data. -/
theorem load_graceful_degradation (m : StorageModel) :
    (m.readRaises = true → loadFromLocalStorage m = none) ∧
      (m.slots STORAGE_KEY = none → loadFromLocalStorage m = none) ∧
      (∀ text, m.slots STORAGE_KEY = some text → parseJson text = none →
        loadFromLocalStorage m = none) ∧
      parseJson "invalid json" = none := by
  refine ⟨?_, ?_, ?_, ?_⟩
  · intro h
    unfold loadFromLocalStorage getItemModel
    simp [h]
  · intro h
    unfold loadFromLocalStorage getItemModel
    by_cases hr : m.readRaises <;> simp [hr, h]
  · intro text ht hp
    unfold loadFromLocalStorage getItemModel
    by_cases hr : m.readRaises <;> simp [hr, ht, hp]
  · rfl

/-- Closed instance of `load_graceful_degradation`: a corrupted slot, a
raising read, and an absent slot all load as "no value". -/
theorem load_graceful_degradation_witness :
    loadFromLocalStorage corruptStorage = none ∧
      loadFromLocalStorage raisingStorage = none ∧
      loadFromLocalStorage emptyStorage = none :=
  ⟨(load_graceful_degradation corruptStorage).2.2.1 "invalid json" rfl rfl,
   (load_graceful_degradation raisingStorage).1 rfl,
   (load_graceful_degradation emptyStorage).2.1 rfl⟩

/-! ## C8: no-op laws on lookup misses -/

/-- C8: for every state and every id matching no todo, Update Todo, Delete
Todo and Toggle Todo each return a state equal to the input state in every
field. -/
theorem reducer_noop_on_unknown_id (s : TodoState) (i : String) (u : PartialTodo)
    (now : Nat) (h : ∀ t ∈ s.todos, t.id ≠ i) :
    todoReducer s (.updateTodo i u) now = s ∧
      todoReducer s (.deleteTodo i) now = s ∧
      todoReducer s (.toggleTodo i) now = s := by
  have hmap : ∀ (g : Todo → Todo),
      (s.todos.map fun t => if t.id = i then g t else t) = s.todos := by
    intro g
    conv_rhs => rw [← List.map_id s.todos]
    exact List.map_congr_left fun t ht => by simp [h t ht]
  have hfil : (s.todos.filter fun t => t.id ≠ i) = s.todos :=
    List.filter_eq_self.mpr fun t ht => by simp [h t ht]
  refine ⟨?_, ?_, ?_⟩
  · show TodoState.mk (s.todos.map fun t => if t.id = i then mergeTodo t u now else t)
      s.categories s.filter = s
    rw [hmap]
  · show TodoState.mk (s.todos.filter fun t => t.id ≠ i) s.categories s.filter = s
    rw [hfil]
  · show TodoState.mk (s.todos.map fun t =>
        if t.id = i then { t with completed := !t.completed, updatedAt := now } else t)
      s.categories s.filter = s
    rw [hmap]

/-- Closed instance of `reducer_noop_on_unknown_id`. -/
theorem reducer_noop_on_unknown_id_witness :
    todoReducer sampleState (.updateTodo "zzz" titleUpdate) 50 = sampleState ∧
      todoReducer sampleState (.deleteTodo "zzz") 50 = sampleState ∧
      todoReducer sampleState (.toggleTodo "zzz") 50 = sampleState :=
  reducer_noop_on_unknown_id sampleState "zzz" titleUpdate 50 (by decide)

/-! ## C9: Update Todo always refreshes updatedAt -/

/-- C9: an Update Todo on an existing id sets the matched todo's `updatedAt`
to the reducer's clock reading `now`, for *every* payload — including the
empty payload, and including payloads that themselves contain an `updatedAt`
field, which the trailing `updatedAt: now` of the spread overrides. -/
theorem update_refreshes_updatedAt (s : TodoState) (i : String) (u : PartialTodo)
    (now : Nat) (j : Nat) (t : Todo) (hj : s.todos[j]? = some t) (ht : t.id = i) :
    ((todoReducer s (.updateTodo i u) now).todos[j]?).map Todo.updatedAt = some now := by
  unfold todoReducer
  simp [List.getElem?_map, hj, ht, mergeTodo]

/-- Closed instance of `update_refreshes_updatedAt`: the empty payload and a
payload carrying `updatedAt := some 999` both leave `updatedAt = 50`. -/
theorem update_refreshes_updatedAt_witness :
    ((todoReducer sampleState (.updateTodo "1" {}) 50).todos[0]?).map Todo.updatedAt
        = some 50 ∧
      ((todoReducer sampleState (.updateTodo "1" overridingUpdate) 50).todos[0]?).map
          Todo.updatedAt = some 50 :=
  ⟨update_refreshes_updatedAt sampleState "1" {} 50 0 sampleTodo rfl rfl,
   update_refreshes_updatedAt sampleState "1" overridingUpdate 50 0 sampleTodo rfl rfl⟩

/-! ## C10: id-keyed operations act on every match -/

/-- C10: the reducer's id-keyed operations act on every match: at every
position holding a todo with the matching id, Update Todo produces the
merged, re-stamped todo and Toggle Todo the flipped, re-stamped todo (so
duplicates are all modified); Update preserves the list length; Delete Todo
leaves no todo with the matching id; and Delete Category leaves no category
with the matching id. -/
theorem reducer_acts_on_all_matches (s : TodoState) (i : String) (u : PartialTodo)
    (now : Nat) :
    (∀ (j : Nat) (t : Todo), s.todos[j]? = some t → t.id = i →
        (todoReducer s (.updateTodo i u) now).todos[j]? = some (mergeTodo t u now) ∧
          (todoReducer s (.toggleTodo i) now).todos[j]? =
            some { t with completed := !t.completed, updatedAt := now }) ∧
      (todoReducer s (.updateTodo i u) now).todos.length = s.todos.length ∧
      (∀ t ∈ (todoReducer s (.deleteTodo i) now).todos, t.id ≠ i) ∧
      ∀ c ∈ (todoReducer s (.deleteCategory i) now).categories, c.id ≠ i := by
  refine ⟨?_, ?_, ?_, ?_⟩
  · intro j t hj ht
    unfold todoReducer
    constructor <;> simp [List.getElem?_map, hj, ht]
  · unfold todoReducer
    simp
  · intro t htm
    unfold todoReducer at htm
    simp only [List.mem_filter, decide_eq_true_eq] at htm
    exact htm.2
  · intro c hcm
    unfold todoReducer at hcm
    simp only [List.mem_filter, decide_eq_true_eq] at hcm
    exact hcm.2

/-- Closed instance of `reducer_acts_on_all_matches` at a state with a
duplicated todo id and a duplicated category id: the second duplicate is also
updated, no matching todo survives deletion, no matching category survives
deletion. -/
theorem reducer_acts_on_all_matches_witness :
    (todoReducer duplicateIdState (.updateTodo "1" titleUpdate) 50).todos[1]?
        = some (mergeTodo { sampleTodo with title := "Buy milk again", createdAt := 15 }
            titleUpdate 50) ∧
      (∀ t ∈ (todoReducer duplicateIdState (.deleteTodo "1") 50).todos, t.id ≠ "1") ∧
      ∀ c ∈ (todoReducer duplicateIdState (.deleteCategory "cat1") 50).categories,
        c.id ≠ "cat1" :=
  ⟨((reducer_acts_on_all_matches duplicateIdState "1" titleUpdate 50).1 1
      { sampleTodo with title := "Buy milk again", createdAt := 15 } rfl rfl).1,
   (reducer_acts_on_all_matches duplicateIdState "1" titleUpdate 50).2.2.1,
   (reducer_acts_on_all_matches duplicateIdState "cat1" titleUpdate 50).2.2.2⟩

/-- Closed instance of `derivedView_dueDate_sort`, at a three-todo state:
order and tie-class stability under the dueDate sort. -/
theorem derivedView_dueDate_sort_witness :
    ((filteredAndSortedTodos dueDateState).Pairwise fun a b =>
        a.completed = b.completed → dueLe a.dueDate b.dueDate) ∧
      ∀ (c : Bool) (k : Option Nat),
        (filteredAndSortedTodos dueDateState).filter
            (fun t => t.completed == c && t.dueDate == k) =
          (applyFilters dueDateState.filter dueDateState.todos).filter
            fun t => t.completed == c && t.dueDate == k :=
  derivedView_dueDate_sort dueDateState rfl
